import Mathlib

/-!
Verification development for the weather dashboard (`WEATHER_APP.py`) of the
OASIS_INFOBYTE repository: a shallow embedding of the asynchronous
fetch-and-render pipeline (fetch worker, result channel, UI poller, condition
renderer) together with theorems settling the claims of the specification.

Modelling conventions:
* Python numbers that the pipeline treats as floats are embedded as `ℚ`
  (exact real-valued semantics of the arithmetic in the source);
  epoch timestamps are `Int`.
* A JSON field that may be missing (or null) is an `Option`.
* Code that may raise is embedded with `Option`/`Except`/explicit error
  components; code that catches every exception is a total function.
* Tkinter widgets are modelled by the semantic content they display.
-/

namespace WeatherApp

/-- Substring test of Python (`needle in hay`), at a given start position:
`listStartsWith n h` is true when `n` is an initial segment of `h`. -/
def listStartsWith : List Char → List Char → Bool
  | [], _ => true
  | _ :: _, [] => false
  | a :: as, b :: bs => a == b && listStartsWith as bs

/-- Auxiliary scan for the substring test: does `needle` occur in the list? -/
def listHasSub (needle : List Char) : List Char → Bool
  | [] => needle.isEmpty
  | c :: rest => listStartsWith needle (c :: rest) || listHasSub needle rest

/-- Embedding of the Python substring test `needle in hay` on strings. -/
def strContains (hay needle : String) : Bool :=
  listHasSub needle.data hay.data

/-- The six scene categories of the Condition Renderer (`WeatherCanvas`). -/
inductive Scene where
  | rain | snow | cloud | fog | thunder | sun
deriving DecidableEq

/-- One drawing operation issued by a `WeatherCanvas._step` tick.
`cloud coverTenths` is `_draw_cloud(cover)` with `cover` in tenths
(default `0.5` ↦ `5`, the `"cloud"` branch passes `0.7` ↦ `7`);
the animated draws carry the tick `t` they were called with. -/
inductive Draw where
  | cloud (coverTenths : Nat)
  | rain (t : Nat)
  | snow (t : Nat)
  | fog (t : Nat)
  | lightning
  | sun (t : Nat)
deriving DecidableEq

/-- Embedding of `WeatherCanvas._step` (source lines 120–139): after clearing the canvas,
the drawing operations of one tick, selected from the condition string by
Python substring tests, in the `if/elif` order of the source.  The thunder branch
draws the lightning only when `(t // 15) % 10 == 0`. -/
def step (cond : String) (t : Nat) : List Draw :=
  if strContains cond "rain" || strContains cond "drizzle" then
    [Draw.cloud 5, Draw.rain t]
  else if strContains cond "snow" then
    [Draw.cloud 5, Draw.snow t]
  else if strContains cond "cloud" then
    [Draw.cloud 7]
  else if strContains cond "fog" || strContains cond "mist" || strContains cond "haze" then
    [Draw.fog t]
  else if strContains cond "thunder" || strContains cond "storm" then
    Draw.cloud 5 :: (if (t / 15) % 10 = 0 then [Draw.lightning] else [])
  else
    [Draw.sun t]

/-- Classify a frame (the draw list of one tick) into the scene category it shows;
`none` for a draw list no tick of `step` produces.  A lone half-cover cloud is
the thunder scene between flashes. -/
def sceneOfDraws : List Draw → Option Scene
  | [Draw.cloud 5, Draw.rain _] => some Scene.rain
  | [Draw.cloud 5, Draw.snow _] => some Scene.snow
  | [Draw.cloud 7] => some Scene.cloud
  | [Draw.fog _] => some Scene.fog
  | [Draw.cloud 5, Draw.lightning] => some Scene.thunder
  | [Draw.cloud 5] => some Scene.thunder
  | [Draw.sun _] => some Scene.sun
  | _ => none

/-- Modelled from the words of the spec (§4.4): the scene category the spec says a
condition keyword selects — rain/drizzle, else snow, else cloud, else
fog/mist/haze, else thunder/storm, anything else the sun. -/
def specSceneFor (cond : String) : Scene :=
  if strContains cond "rain" || strContains cond "drizzle" then Scene.rain
  else if strContains cond "snow" then Scene.snow
  else if strContains cond "cloud" then Scene.cloud
  else if strContains cond "fog" || strContains cond "mist" || strContains cond "haze" then
    Scene.fog
  else if strContains cond "thunder" || strContains cond "storm" then Scene.thunder
  else Scene.sun

/-- The state of a `WeatherCanvas`: its condition string, its animation tick
counter `_anim_t`, and the items currently on the canvas. -/
structure CanvasState where
  condition : String
  animT : Nat
  canvasItems : List Draw
deriving DecidableEq

/-- Embedding of `WeatherCanvas.set_condition` (source lines 95–102): store the lowercased
condition (`condition or "clear"`: an empty string falls back to `"clear"`),
reset `_anim_t` to `0` and clear the canvas. -/
def set_condition (st : CanvasState) (condition : String) : CanvasState :=
  { st with
    condition := (if condition = "" then "clear" else condition).toLower
    animT := 0
    canvasItems := [] }

/-- One iteration of `WeatherCanvas._anim_loop` (source lines 111–118): run
`_step` with the current counter, then increment `_anim_t`. -/
def tick (st : CanvasState) : CanvasState :=
  { st with
    canvasItems := step st.condition st.animT
    animT := st.animT + 1 }

/-- Iterate the animation loop `n` times. -/
def tickN : Nat → CanvasState → CanvasState
  | 0, st => st
  | n + 1, st => tick (tickN n st)

theorem tickN_condition (n : Nat) (st : CanvasState) :
    (tickN n st).condition = st.condition := by
  induction n with
  | zero => rfl
  | succ n ih => simp [tickN, tick, ih]

theorem tickN_animT (n : Nat) (st : CanvasState) :
    (tickN n st).animT = st.animT + n := by
  induction n with
  | zero => rfl
  | succ n ih => simp [tickN, tick, ih]; omega

/-- C4: for every condition keyword and tick, one renderer tick draws a frame
falling in exactly one of the six scene categories, the one given by the
substring-matching chain of the spec (rain/drizzle, else snow, else cloud, else
fog/mist/haze, else thunder/storm, else sun), deterministically. -/
theorem step_selects_unique_scene (cond : String) (t : Nat) :
    sceneOfDraws (step cond t) = some (specSceneFor cond) := by
  unfold step specSceneFor
  split_ifs <;> simp [sceneOfDraws]

/-- C8: for every prior canvas state and every new condition value,
`set_condition` stores the lowercased condition (defaulting to `"clear"` for
an empty value), resets the tick counter to `0`, clears the canvas, and the
tick sequence restarts from `0`: after `n` further ticks the counter is `n`,
and the `(n+1)`-st frame is drawn with tick value `n`. -/
theorem set_condition_resets (st : CanvasState) (c : String) (n : Nat) :
    (set_condition st c).condition = (if c = "" then "clear" else c).toLower ∧
    (set_condition st c).animT = 0 ∧
    (set_condition st c).canvasItems = [] ∧
    (tickN n (set_condition st c)).animT = n ∧
    (tickN (n + 1) (set_condition st c)).canvasItems =
      step ((if c = "" then "clear" else c).toLower) n := by
  refine ⟨rfl, rfl, rfl, ?_, ?_⟩
  · rw [tickN_animT]
    simp [set_condition]
  · show (tick (tickN n (set_condition st c))).canvasItems = _
    simp [tick, tickN_condition, tickN_animT, set_condition]

/-- One hourly forecast entry as the pipeline reads it: `h.get("dt")`,
`h.get("temp")`, and `safe_get(h, "weather", 0, "main")` (`none` when the
`weather` list is missing or empty or has no `main`). -/
structure HourlyEntry where
  dt : Option Int
  temp : Option ℚ
  weatherMain : Option String
deriving DecidableEq

/-- The `current` record of the one-call response, as read by the pipeline;
every field may be absent (or JSON `null`).  `weatherMain`/`weatherDescr` are
`safe_get(cur, "weather", 0, "main"/"description")`. -/
structure CurrentRec where
  temp : Option ℚ
  feels_like : Option ℚ
  humidity : Option ℚ
  wind_speed : Option ℚ
  pressure : Option ℚ
  visibility : Option ℚ
  sunrise : Option Int
  sunset : Option Int
  weatherMain : Option String
  weatherDescr : Option String
deriving DecidableEq

/-- A `current` record with every field absent: the `oc.get` default. -/
def emptyCurrent : CurrentRec :=
  ⟨none, none, none, none, none, none, none, none, none, none⟩

/-- The fields of the first (current-weather) response body that `fetch`
reads: `safe_get(data, "coord", "lat"/"lon")` and
`safe_get(data, "timezone", default=0)`. -/
structure WeatherBody where
  lat : Option ℚ
  lon : Option ℚ
  timezone : Option Int
deriving DecidableEq

/-- The fields of the second (one-call) response body that `fetch` reads,
each with its `oc.get` fallback applied by `fetch` itself. -/
structure OneCall where
  current : Option CurrentRec
  hourly : Option (List HourlyEntry)
  daily : Option (List HourlyEntry)
deriving DecidableEq

/-- The source builds the location name with `safe_get(data, "name", "")`
and `safe_get(data, "sys", "country", "")`: the trailing empty string is a
*key*, so the lookup indexes the string value under `name` (resp. the
country string) with a string key, which raises and falls back to the
`safe_get` default `None`; the f-string therefore renders the literal
`"None, None"` for every response body. -/
def locationName (_data : WeatherBody) : String := "None, None"

/-- The `combined` dictionary `WeatherFetcher.fetch` returns
(source lines 226–236): the `WeatherSnapshot` of the worker. -/
structure Combined where
  location_name : String
  lat : Option ℚ
  lon : Option ℚ
  tz_offset : Int
  current : CurrentRec
  hourly : List HourlyEntry
  daily : List HourlyEntry
  raw_weather : WeatherBody
deriving DecidableEq

/-- Outcome of one `requests.get` + `raise_for_status()` + `.json()`
sequence, as seen by `fetch`:
* `raised msg` — `requests.get` itself raised (connection error, timeout);
* `httpErr bodyMessage excText` — non-2xx status, so `raise_for_status`
  raised an `HTTPError` whose response body carries `"message"` field
  `bodyMessage` (`none` when the body is unparseable or has no message) and
  whose `str()` is `excText`;
* `okBadJson msg` — 2xx status but `.json()` raised;
* `ok body` — 2xx status with a parsed body. -/
inductive ReqOut (α : Type) where
  | raised (msg : String)
  | httpErr (bodyMessage : Option String) (excText : String)
  | okBadJson (msg : String)
  | ok (body : α)
deriving DecidableEq

/-- An exception escaping `WeatherFetcher.fetch`: the `ValueError` for a
missing API key, an `HTTPError` from either request, or any other exception
with its text. -/
inductive FetchExn where
  | valueErr (msg : String)
  | httpError (bodyMessage : Option String) (excText : String)
  | generic (msg : String)
deriving DecidableEq

/-- Embedding of `WeatherFetcher.fetch` (source lines 206–236): raise `ValueError` when
the API key is falsy (empty), perform the two chained requests, and combine
the bodies.  The `hourly` list is passed through from the provider with only
the `oc.get("hourly", [])` fallback — no truncation happens here. -/
def fetch (api_key _location : String) (o1 : ReqOut WeatherBody)
    (o2 : ReqOut OneCall) : Except FetchExn Combined :=
  if api_key = "" then Except.error (FetchExn.valueErr "OpenWeatherMap API key not set.")
  else
    match o1 with
    | ReqOut.raised m => Except.error (FetchExn.generic m)
    | ReqOut.httpErr bm t => Except.error (FetchExn.httpError bm t)
    | ReqOut.okBadJson m => Except.error (FetchExn.generic m)
    | ReqOut.ok data =>
      match o2 with
      | ReqOut.raised m => Except.error (FetchExn.generic m)
      | ReqOut.httpErr bm t => Except.error (FetchExn.httpError bm t)
      | ReqOut.okBadJson m => Except.error (FetchExn.generic m)
      | ReqOut.ok oc =>
        Except.ok
          { location_name := locationName data
            lat := data.lat
            lon := data.lon
            tz_offset := data.timezone.getD 0
            current := oc.current.getD emptyCurrent
            hourly := oc.hourly.getD []
            daily := oc.daily.getD []
            raw_weather := data }

/-- A `FetchResult` message on the Result Channel: the `("ok", data)` /
`("error", text)` pairs `_background_fetch` pushes onto `self.queue`. -/
inductive Msg where
  | ok (data : Combined)
  | err (text : String)
deriving DecidableEq

/-- The error string `_background_fetch` builds for an exception from
`fetch`: an `HTTPError` becomes `"API error: "` followed by the response
`message` field of the body when present, else the exception text; every other
exception becomes `"Fetch error: "` followed by its text. -/
def renderFetchExn : FetchExn → String
  | FetchExn.httpError bodyMessage excText => "API error: " ++ bodyMessage.getD excText
  | FetchExn.valueErr m => "Fetch error: " ++ m
  | FetchExn.generic m => "Fetch error: " ++ m

/-- Embedding of `WeatherDashboard._background_fetch` (source lines 392–403), as
the list of messages it pushes onto the Result Channel.  Its `try/except`
ladder catches every exception from `fetch`, so the embedding is a total
function: no exception leaves the thread body. -/
def background_fetch (api_key location : String) (o1 : ReqOut WeatherBody)
    (o2 : ReqOut OneCall) : List Msg :=
  match fetch api_key location o1 o2 with
  | Except.ok data => [Msg.ok data]
  | Except.error e => [Msg.err (renderFetchExn e)]

/-- C1: for every fetch invocation of the worker — any location string, any
API key (including a missing one, embedded as the falsy empty string), and
any provider/network outcome of either request (raised exception, HTTP
error, malformed payload, success) — the worker pushes exactly one message
onto the Result Channel, and that message is `Ok(snapshot)` or
`Err(message)`; totality of `background_fetch` embeds the absence of any
escaping exception. -/
theorem background_fetch_single_push (api_key location : String)
    (o1 : ReqOut WeatherBody) (o2 : ReqOut OneCall) :
    ∃ m, background_fetch api_key location o1 o2 = [m] ∧
      ((∃ data, m = Msg.ok data) ∨ (∃ text, m = Msg.err text)) := by
  unfold background_fetch
  cases h : fetch api_key location o1 o2 with
  | ok data => exact ⟨Msg.ok data, rfl, Or.inl ⟨data, rfl⟩⟩
  | error e => exact ⟨Msg.err (renderFetchExn e), rfl, Or.inr ⟨renderFetchExn e, rfl⟩⟩

/-- The semantic content of one display field: the initial/explicit dash
placeholder, a numeric value, the Python textual rendering of `None` inside an
f-string (e.g. `"Humidity: None%"`), or a time-of-day derived from a local
epoch value. -/
inductive Disp where
  | dash
  | num (q : ℚ)
  | rawNone
  | time (localEpoch : Int)
deriving DecidableEq

/-- The icon category of an hourly forecast card (source lines 477–485). -/
inductive Icon where
  | sun | rain | cloud | snow | fog
deriving DecidableEq

/-- Icon selection of the hourly loop: substring tests on the lowercased
`main` keyword, in the `if/elif` order of the source, defaulting to the sun. -/
def hourIcon (main : String) : Icon :=
  if strContains main "rain" then Icon.rain
  else if strContains main "cloud" then Icon.cloud
  else if strContains main "snow" then Icon.snow
  else if strContains main "fog" || strContains main "mist" then Icon.fog
  else Icon.sun

/-- One fully built hourly forecast card: local time label, icon, and the
temperature shown. -/
structure HourCard where
  localEpoch : Int
  icon : Icon
  tempC : ℚ
deriving DecidableEq

/-- An exception raised inside the hourly loop of `_update_ui_with_data`,
with the CPython message text used in the status line:
* `localizeNone` — `timestamp_to_local(None, tz)`: the fallback
  `datetime.fromtimestamp(None)` raises `TypeError`;
* `formatNone` — `f"{None:.0f}"` raises `TypeError`. -/
inductive UIExn where
  | localizeNone
  | formatNone
deriving DecidableEq

/-- The `str()` text of the exceptions modelled by `UIExn`. -/
def uiExnText : UIExn → String
  | UIExn.localizeNone => "an integer is required (got type NoneType)"
  | UIExn.formatNone => "unsupported format string passed to NoneType.__format__"

/-- Embedding of `timestamp_to_local` (source lines 64–68), on the values the
pipeline passes it: for an integer timestamp it yields the offset-adjusted
epoch value (the local wall-clock instant); for `None` both the guarded body
and the `except` fallback raise `TypeError`. -/
def timestamp_to_local : Option Int → Int → Except UIExn Int
  | some ts, tz_offset => Except.ok (ts + tz_offset)
  | none, _ => Except.error UIExn.localizeNone

/-- Embedding of `meters_per_sec_to_kmh` (source lines 58–62): `ms * 3.6`, total on
numeric input (its `except` branch fires only on non-numeric input). -/
def meters_per_sec_to_kmh (ms : ℚ) : ℚ := ms * (18 / 5)

/-- Auxiliary scan for the Python `str.title()` method: uppercase an alphabetic
character that begins a word, lowercase the rest. -/
def pyTitleAux : Bool → List Char → List Char
  | _, [] => []
  | prevAlpha, c :: cs =>
    (if c.isAlpha then (if prevAlpha then c.toLower else c.toUpper) else c)
      :: pyTitleAux c.isAlpha cs

/-- Embedding of the Python `str.title()` method (alphabetic casing). -/
def pyTitle (s : String) : String := ⟨pyTitleAux false s.data⟩

/-- Python truthiness of an optional integer (`if sunrise and sunset:`):
`None` and `0` are falsy. -/
def truthyInt : Option Int → Bool
  | none => false
  | some n => n != 0

/-- The daylight fraction computed by `_draw_sun_arc` (source lines
503–506): `elapsed = max(0, min(now - sunrise, total))`, then
`pct = elapsed / total if total > 0 else 0`, with real-valued division. -/
def daylight_pct (sunrise_ts sunset_ts now_ts : Int) : ℚ :=
  let total := sunset_ts - sunrise_ts
  let elapsed := max 0 (min (now_ts - sunrise_ts) total)
  if 0 < total then (elapsed : ℚ) / (total : ℚ) else 0

/-- The hourly-card loop of `_update_ui_with_data` (source lines 469–488),
embedded as the cards fully built before the loop finishes or raises:
for each entry the loop localizes `h.get("dt")` (raising on `None`), picks
the icon from the lowercased `main` keyword, and formats `h.get("temp")`
with `:.0f` (raising on `None`).  The partially packed widgets of the
failing entry display no card content and are not modelled. -/
def buildCards (tz_offset : Int) : List HourlyEntry → List HourCard × Option UIExn
  | [] => ([], none)
  | h :: rest =>
    match timestamp_to_local h.dt tz_offset with
    | Except.error e => ([], some e)
    | Except.ok localEpoch =>
      match h.temp with
      | none => ([], some UIExn.formatNone)
      | some q =>
        let p := buildCards tz_offset rest
        ({ localEpoch := localEpoch
           icon := hourIcon ((h.weatherMain.getD "Clear").toLower)
           tempC := q } :: p.1, p.2)

/-- The display state of the dashboard: the status line, every display
field, the sun-arc drawing (the daylight fraction it shows, `none` when
cleared), the hourly cards, the animated canvas, and the stored current
snapshot `self.current_data`. -/
structure UIState where
  status : String
  lblLocation : String
  lblTemp : Disp
  lblFeels : Disp
  lblDescr : String
  statHumidity : Disp
  statWind : Disp
  statPressure : Disp
  statVisibility : Disp
  sunriseLabel : Disp
  sunsetLabel : Disp
  sunArc : Option ℚ
  hourlyCards : List HourCard
  canvas : CanvasState
  currentData : Option Combined
deriving DecidableEq

/-- Embedding of `WeatherDashboard._update_ui_with_data` (source lines 420–492).  All
updates before the hourly loop cannot raise on this data model: absent
`temp`/`feels_like` skip their labels (leaving the previous value), absent
`humidity`/`pressure` render the Python `None` inside the f-string, absent
`visibility` renders a dash, `wind_speed` defaults to `0`, and the
sunrise/sunset branch tests Python truthiness.  The hourly loop runs on
`hourly[:12]`; if it raises, the outer `except` keeps all earlier field
updates and the cards built so far and puts the exception text in the
status line; otherwise the status becomes `"Showing: "` + location name. -/
def update_ui_with_data (st : UIState) (combined : Combined) (now_ts : Int) : UIState :=
  let cur := combined.current
  let desc := pyTitle (cur.weatherDescr.getD "")
  let cond_main := (cur.weatherMain.getD "Clear").toLower
  let sunBoth := truthyInt cur.sunrise && truthyInt cur.sunset
  let st1 : UIState :=
    { st with
      lblLocation := combined.location_name
      canvas := set_condition st.canvas cond_main
      lblTemp := match cur.temp with | some q => Disp.num q | none => st.lblTemp
      lblFeels := match cur.feels_like with | some q => Disp.num q | none => st.lblFeels
      lblDescr := if desc = "" then "—" else desc
      statHumidity := match cur.humidity with | some q => Disp.num q | none => Disp.rawNone
      statWind := Disp.num (meters_per_sec_to_kmh (cur.wind_speed.getD 0))
      statPressure := match cur.pressure with | some q => Disp.num q | none => Disp.rawNone
      statVisibility :=
        match cur.visibility with
        | some v => Disp.num (v / 1000)
        | none => Disp.dash
      sunriseLabel :=
        if sunBoth then Disp.time (cur.sunrise.getD 0 + combined.tz_offset) else Disp.dash
      sunsetLabel :=
        if sunBoth then Disp.time (cur.sunset.getD 0 + combined.tz_offset) else Disp.dash
      sunArc :=
        if sunBoth then some (daylight_pct (cur.sunrise.getD 0) (cur.sunset.getD 0) now_ts)
        else none
      hourlyCards := [] }
  match buildCards combined.tz_offset (combined.hourly.take 12) with
  | (cards, none) =>
    { st1 with
      hourlyCards := cards
      status := "Showing: " ++ combined.location_name }
  | (cards, some e) =>
    { st1 with
      hourlyCards := cards
      status := "UI update error: " ++ uiExnText e }

/-- Applying one received message, as the non-empty branches of
`_process_queue` do (source lines 411–417): an error message only sets the
status line (the stray unplaced `CTkLabel` it also constructs displays
nothing and is not modelled); an ok message stores the snapshot in
`self.current_data`, sets the status to `"Data loaded."`, and runs
`_update_ui_with_data`. -/
def applyMsg (st : UIState) (now_ts : Int) : Msg → UIState
  | Msg.err text => { st with status := text }
  | Msg.ok data =>
    update_ui_with_data
      { st with currentData := some data, status := "Data loaded." } data now_ts

/-- Embedding of `WeatherDashboard._process_queue` (source lines 405–417), one invocation
over the queue contents: the result is the new display state, the remaining
queue, and whether the invocation rescheduled itself with
`self.after(100, self._process_queue)`.  Only the `Empty` branch
reschedules; both the error branch and the ok branch return without
rescheduling. -/
def process_queue (st : UIState) (q : List Msg) (now_ts : Int) :
    UIState × List Msg × Bool :=
  match q with
  | [] => (st, [], true)
  | m :: rest => (applyMsg st now_ts m, rest, false)

/-- The display state right after `WeatherDashboard.__init__` (source lines
240–346): status `"Ready"`, placeholder texts everywhere, an empty hourly
area, the canvas at its initial `"clear"` condition, and no stored
snapshot. -/
def initState : UIState :=
  { status := "Ready"
    lblLocation := "Location —"
    lblTemp := Disp.dash
    lblFeels := Disp.dash
    lblDescr := "—"
    statHumidity := Disp.dash
    statWind := Disp.dash
    statPressure := Disp.dash
    statVisibility := Disp.dash
    sunriseLabel := Disp.dash
    sunsetLabel := Disp.dash
    sunArc := none
    hourlyCards := []
    canvas := { condition := "clear", animT := 0, canvasItems := [] }
    currentData := none }

/-- A parsed JSON value from the favorites file: an array of strings (the
intended shape, `[]` when empty) or any other JSON value. -/
inductive JsonVal where
  | arr (favs : List String)
  | other
deriving DecidableEq

/-- The state of the favorites file when `load_favorites` runs: missing,
present but unreadable, readable but not valid JSON, or parseable. -/
inductive FavFile where
  | missing
  | unreadable
  | badJson
  | parsed (v : JsonVal)
deriving DecidableEq

/-- Embedding of `load_favorites` (source lines 35–40): open and parse the favorites
file, returning `[]` on any exception (missing file, read failure, JSON
parse failure).  Totality of this embedding is the absence of any escaping
exception. -/
def load_favorites : FavFile → JsonVal
  | FavFile.missing => JsonVal.arr []
  | FavFile.unreadable => JsonVal.arr []
  | FavFile.badJson => JsonVal.arr []
  | FavFile.parsed v => v

/-- C10: loading the favorites list is total — for a missing, unreadable, or
unparseable favorites file, `load_favorites` returns the empty list instead
of raising, so startup never fails because of the favorites file. -/
theorem load_favorites_total_on_failure :
    load_favorites FavFile.missing = JsonVal.arr [] ∧
    load_favorites FavFile.unreadable = JsonVal.arr [] ∧
    load_favorites FavFile.badJson = JsonVal.arr [] :=
  ⟨rfl, rfl, rfl⟩

/-- C2, counterexample: an invocation of the poller that applies a message
does not reschedule itself, so the claim that every invocation reschedules
fails already at an initial state with one error message queued. -/
theorem process_queue_err_not_rescheduled :
    (process_queue initState [Msg.err "API error: city not found"] 0).2.2 = false :=
  rfl

/-- C2, amended: the poller reschedules itself exactly when the channel was
empty; after applying a message (`Ok` or `Err`) it returns without
rescheduling, so a polling chain started by a search ends once it has
consumed one message. -/
theorem process_queue_reschedules_iff_empty (st : UIState) (q : List Msg)
    (now_ts : Int) :
    (process_queue st q now_ts).2.2 = q.isEmpty := by
  cases q <;> rfl

/-- C3: a single poller invocation consumes at most one message (the
remaining queue is always the tail); with two results enqueued back to back
the first invocation applies only the first, leaving the second queued, and
the second is applied by the next invocation, never the same one. -/
theorem process_queue_applies_one (st : UIState) (q : List Msg) (m1 m2 : Msg)
    (rest : List Msg) (now_ts now_ts2 : Int) :
    (process_queue st q now_ts).2.1 = q.tail ∧
    process_queue st (m1 :: m2 :: rest) now_ts =
      (applyMsg st now_ts m1, m2 :: rest, false) ∧
    process_queue (applyMsg st now_ts m1) (m2 :: rest) now_ts2 =
      (applyMsg (applyMsg st now_ts m1) now_ts2 m2, rest, false) := by
  refine ⟨?_, rfl, rfl⟩
  cases q <;> rfl

/-- C5: when the poller receives an `Err` result, the new display state has
the carried error string as its status line, and every other field —
location, temperature, feels-like, description, humidity, wind, pressure,
visibility, sunrise/sunset, sun arc, hourly cards, canvas, and the stored
current snapshot — is unchanged from its previous value. -/
theorem process_queue_err_sets_status_only (st : UIState) (text : String)
    (rest : List Msg) (now_ts : Int) :
    ((process_queue st (Msg.err text :: rest) now_ts).1.status = text) ∧
    ((process_queue st (Msg.err text :: rest) now_ts).1.lblLocation = st.lblLocation) ∧
    ((process_queue st (Msg.err text :: rest) now_ts).1.lblTemp = st.lblTemp) ∧
    ((process_queue st (Msg.err text :: rest) now_ts).1.lblFeels = st.lblFeels) ∧
    ((process_queue st (Msg.err text :: rest) now_ts).1.lblDescr = st.lblDescr) ∧
    ((process_queue st (Msg.err text :: rest) now_ts).1.statHumidity = st.statHumidity) ∧
    ((process_queue st (Msg.err text :: rest) now_ts).1.statWind = st.statWind) ∧
    ((process_queue st (Msg.err text :: rest) now_ts).1.statPressure = st.statPressure) ∧
    ((process_queue st (Msg.err text :: rest) now_ts).1.statVisibility = st.statVisibility) ∧
    ((process_queue st (Msg.err text :: rest) now_ts).1.sunriseLabel = st.sunriseLabel) ∧
    ((process_queue st (Msg.err text :: rest) now_ts).1.sunsetLabel = st.sunsetLabel) ∧
    ((process_queue st (Msg.err text :: rest) now_ts).1.sunArc = st.sunArc) ∧
    ((process_queue st (Msg.err text :: rest) now_ts).1.hourlyCards = st.hourlyCards) ∧
    ((process_queue st (Msg.err text :: rest) now_ts).1.canvas = st.canvas) ∧
    ((process_queue st (Msg.err text :: rest) now_ts).1.currentData = st.currentData) :=
  ⟨rfl, rfl, rfl, rfl, rfl, rfl, rfl, rfl, rfl, rfl, rfl, rfl, rfl, rfl, rfl⟩

/-- A well-formed hourly entry used to build concrete snapshots. -/
def sampleEntry : HourlyEntry :=
  { dt := some 1700000000, temp := some 10, weatherMain := some "Clear" }

/-- A concrete first-response body. -/
def wbody0 : WeatherBody := { lat := some 0, lon := some 0, timezone := some 0 }

/-- A concrete one-call body whose `hourly` list has 13 entries. -/
def oc13 : OneCall :=
  { current := some emptyCurrent
    hourly := some (List.replicate 13 sampleEntry)
    daily := some [] }

/-- The snapshot `fetch` builds from `wbody0` and `oc13`. -/
def snap13 : Combined :=
  { location_name := "None, None"
    lat := some 0
    lon := some 0
    tz_offset := 0
    current := emptyCurrent
    hourly := List.replicate 13 sampleEntry
    daily := []
    raw_weather := wbody0 }

/-- C6, counterexample: the Fetch Worker does not truncate the hourly
sequence — on a provider response with 13 hourly entries the produced
snapshot carries all 13, refuting the claimed at-most-12 invariant. -/
theorem fetch_hourly_not_truncated :
    fetch "k" "Paris,FR" (ReqOut.ok wbody0) (ReqOut.ok oc13) = Except.ok snap13 ∧
    12 < snap13.hourly.length := by
  constructor
  · rfl
  · decide

theorem buildCards_length_le (tz_offset : Int) (l : List HourlyEntry) :
    (buildCards tz_offset l).1.length ≤ l.length := by
  induction l with
  | nil => simp [buildCards]
  | cons h rest ih =>
    cases hdt : h.dt with
    | none => simp [buildCards, timestamp_to_local, hdt]
    | some ts =>
      cases htemp : h.temp with
      | none => simp [buildCards, timestamp_to_local, hdt, htemp]
      | some q =>
        simp only [buildCards, timestamp_to_local, hdt, htemp, List.length_cons]
        exact Nat.succ_le_succ ih

theorem update_hourlyCards_eq (st : UIState) (c : Combined) (now_ts : Int) :
    (update_ui_with_data st c now_ts).hourlyCards =
      (buildCards c.tz_offset (c.hourly.take 12)).1 := by
  cases hb : buildCards c.tz_offset (c.hourly.take 12) with
  | mk cards e => cases e <;> simp [update_ui_with_data, hb]

/-- C6, amended: the snapshot the Fetch Worker produces carries the
hourly list of the provider unchanged (possibly longer than 12); the truncation
to at most 12 entries happens when the UI renders the snapshot, so the
displayed hourly cards never number more than 12. -/
theorem hourly_truncated_at_display (api_key location : String)
    (d : WeatherBody) (oc : OneCall) (c : Combined) (st : UIState)
    (now_ts : Int)
    (h : fetch api_key location (ReqOut.ok d) (ReqOut.ok oc) = Except.ok c) :
    c.hourly = oc.hourly.getD [] ∧
    (update_ui_with_data st c now_ts).hourlyCards.length ≤ 12 := by
  constructor
  · unfold fetch at h
    split at h
    · exact absurd h (by simp)
    · simp only [Except.ok.injEq] at h
      rw [← h]
  · calc (update_ui_with_data st c now_ts).hourlyCards.length
        = (buildCards c.tz_offset (c.hourly.take 12)).1.length := by
          rw [update_hourlyCards_eq]
      _ ≤ (c.hourly.take 12).length := buildCards_length_le _ _
      _ ≤ 12 := by rw [List.length_take]; exact min_le_left _ _

theorem hourly_truncated_at_display_witness :
    snap13.hourly = oc13.hourly.getD [] ∧
    (update_ui_with_data initState snap13 0).hourlyCards.length ≤ 12 :=
  hourly_truncated_at_display "k" "Paris,FR" wbody0 oc13 snap13 initState 0 rfl

/-- A snapshot whose single hourly entry has an absent temperature. -/
def snapBadHourly : Combined :=
  { location_name := "None, None"
    lat := some 0
    lon := some 0
    tz_offset := 0
    current := emptyCurrent
    hourly := [{ dt := some 1700000000, temp := none, weatherMain := some "Clear" }]
    daily := []
    raw_weather := wbody0 }

/-- C7, failing input: applying a snapshot whose hourly entry lacks its
temperature makes the `f"{temp_h:.0f}"` formatting raise, aborting the
hourly rendering — the outer handler turns the exception into a
`"UI update error"` status and no hourly card is shown, instead of the
claimed placeholder-and-complete behavior. -/
theorem absent_hourly_temp_aborts_update :
    (update_ui_with_data initState snapBadHourly 0).status =
      "UI update error: " ++ uiExnText UIExn.formatNone ∧
    (update_ui_with_data initState snapBadHourly 0).hourlyCards = [] := by
  constructor <;> rfl

/-- C9: for all integer sunrise, sunset and current timestamps, when
`sunset > sunrise` the daylight fraction drawn by the sun arc equals
`(now - sunrise) / (sunset - sunrise)` clamped to `[0, 1]`, and it equals
`0` whenever `sunset - sunrise` is not positive. -/
theorem daylight_pct_clamped (sunrise_ts sunset_ts now_ts : Int) :
    (sunrise_ts < sunset_ts →
      daylight_pct sunrise_ts sunset_ts now_ts =
        max 0 (min (((now_ts : ℚ) - (sunrise_ts : ℚ)) /
          ((sunset_ts : ℚ) - (sunrise_ts : ℚ))) 1)) ∧
    (sunset_ts - sunrise_ts ≤ 0 → daylight_pct sunrise_ts sunset_ts now_ts = 0) := by
  have hrw : daylight_pct sunrise_ts sunset_ts now_ts =
      if 0 < sunset_ts - sunrise_ts then
        ((max 0 (min (now_ts - sunrise_ts) (sunset_ts - sunrise_ts)) : Int) : ℚ) /
          (((sunset_ts - sunrise_ts : Int)) : ℚ)
      else 0 := rfl
  constructor
  · intro h
    have ht : (0 : ℤ) < sunset_ts - sunrise_ts := by omega
    have hD : (0 : ℚ) < (sunset_ts : ℚ) - (sunrise_ts : ℚ) := by
      rw [sub_pos]
      exact_mod_cast h
    rw [hrw, if_pos ht]
    push_cast
    set a := (now_ts : ℚ) - (sunrise_ts : ℚ) with ha
    set D := (sunset_ts : ℚ) - (sunrise_ts : ℚ) with hDdef
    rcases le_total a 0 with h0 | h0
    · have hmin : min a D = a := min_eq_left (h0.trans hD.le)
      have hdiv : a / D ≤ 0 := div_nonpos_iff.mpr (Or.inr ⟨h0, hD.le⟩)
      rw [hmin, max_eq_left h0, zero_div,
        min_eq_left (hdiv.trans zero_le_one), max_eq_left hdiv]
    · rcases le_total a D with h1 | h1
      · have hdiv0 : 0 ≤ a / D := div_nonneg h0 hD.le
        have hdiv1 : a / D ≤ 1 := (div_le_one hD).mpr h1
        rw [min_eq_left h1, max_eq_right h0, min_eq_left hdiv1, max_eq_right hdiv0]
      · have hdiv1 : 1 ≤ a / D := (one_le_div hD).mpr h1
        rw [min_eq_right h1, max_eq_right hD.le, div_self hD.ne',
          min_eq_right hdiv1, max_eq_right zero_le_one]
  · intro h
    rw [hrw, if_neg (by omega)]

theorem daylight_pct_clamped_witness :
    daylight_pct 0 2 1 =
      max 0 (min ((((1 : ℤ) : ℚ) - ((0 : ℤ) : ℚ)) /
        (((2 : ℤ) : ℚ) - ((0 : ℤ) : ℚ))) 1) ∧
    daylight_pct 2 0 5 = 0 :=
  ⟨(daylight_pct_clamped 0 2 1).1 (by decide),
    (daylight_pct_clamped 2 0 5).2 (by decide)⟩

end WeatherApp
